import Mathlib

/-!
Verification development for the Switchboard Python SDK
(`src/sdk/python/switchboard_sdk/`), a real-time messaging client.

The embedding is a shallow, sequential model of the protocol engine:
`types.py` (wire model: `Message.from_dict` / `Message.to_dict`) and
`client.py` (`SwitchboardClient`: connection lifecycle, receive loop,
system-message interpretation, reconnection backoff, handler dispatch).

Modelling conventions:
- Python JSON values become the `Json` inductive; Python `dict` objects of
  a JSON frame become association lists with first-match lookup.
- The asyncio client is modelled as a sequential state-transition system:
  each operation maps a `ClientState` to a new `ClientState` together with
  a trace of observable events (`Ev`): handler invocations, socket
  opens/closes, task/timer lifecycle, sleeps.  `await`ed calls are inlined
  in program order.
- Handlers are opaque to the client except for their registration order
  and whether their invocation raises; they are modelled as an id plus a
  `fails` flag.  The client's `try/except` wrappers around handler calls
  become trace events (`handlerErrorLogged`) rather than propagation.
- Liveness of external resources (sockets, receive tasks, reconnect
  timers) is tracked in explicit ledgers (`openSockets`, `runningTasks`,
  `pendingTimers`); the Python attribute references (`self.websocket`,
  `self._receive_task`, `self._reconnect_task`) are kept separately, since
  the code keeps stale references after close/cancel.
- Wall-clock time is a `Nat` parameter passed where `time.time()` is read;
  backoff delays are `ℚ` (Python floats carry only small dyadic values
  here: `reconnect_delay * 2 ** k` and the `0.1` grace sleep).
-/

namespace Switchboard

/-- JSON-compatible values as carried in wire frames (Python `json` module
output: `None`/`bool`/numbers/`str`/`list`/`dict`).  Numbers are modelled
as integers; no claim involves fractional JSON numbers. -/
inductive Json where
  | null
  | bool (b : Bool)
  | num (n : Int)
  | str (s : String)
  | arr (xs : List Json)
  | obj (fields : List (String × Json))

/-- Python truthiness of a JSON value (`if x:`): `None`, `False`, `0`,
`""`, `[]`, `{ }` are falsy. -/
def Json.truthy : Json → Bool
  | .null => false
  | .bool b => b
  | .num n => n != 0
  | .str s => s != ""
  | .arr xs => !xs.isEmpty
  | .obj fs => !fs.isEmpty

/-- Python `str()` of a JSON value as used in f-string interpolation of
error messages.  Container formatting is abstracted (no claim inspects
these strings). -/
def Json.display : Json → String
  | .null => "None"
  | .bool true => "True"
  | .bool false => "False"
  | .num n => toString n
  | .str s => s
  | .arr _ => "list"
  | .obj _ => "dict"

/-- Python `dict` lookup (`data.get(k)` / `data[k]`) over the association
list of a decoded JSON object: first match wins. -/
def lookupJ (data : List (String × Json)) (k : String) : Option Json :=
  match data with
  | [] => none
  | (k1, v) :: rest => if k1 = k then some v else lookupJ rest k

/-- `MessageType` enumeration from `types.py`: the seven valid message
types of the Switchboard protocol. -/
inductive MessageType where
  | instructor_inbox
  | inbox_response
  | request
  | request_response
  | analytics
  | instructor_broadcast
  | system
deriving DecidableEq, Repr

/-- The wire string of each `MessageType` member (its `.value`). -/
def MessageType.toWire : MessageType → String
  | .instructor_inbox => "instructor_inbox"
  | .inbox_response => "inbox_response"
  | .request => "request"
  | .request_response => "request_response"
  | .analytics => "analytics"
  | .instructor_broadcast => "instructor_broadcast"
  | .system => "system"

/-- `MessageType(s)` on a string: `some` member whose value is `s`, else
`none` (Python raises `ValueError`). -/
def MessageType.fromString (s : String) : Option MessageType :=
  if s = "instructor_inbox" then some .instructor_inbox
  else if s = "inbox_response" then some .inbox_response
  else if s = "request" then some .request
  else if s = "request_response" then some .request_response
  else if s = "analytics" then some .analytics
  else if s = "instructor_broadcast" then some .instructor_broadcast
  else if s = "system" then some .system
  else none

/-- Whether a JSON value would be accepted by `MessageType(data["type"])`:
it must be a string equal to one of the seven enumerated wire values. -/
def jsonIsValidType : Json → Bool
  | .str s => (MessageType.fromString s).isSome
  | _ => false

/-- `Message` dataclass from `types.py`.  Field values are JSON values as
Python leaves them untyped at runtime (`context` for instance is stored
verbatim from the frame); `timestamp` keeps the ISO string after the
`replace("Z", "+00:00")` step, with `datetime` parsing abstracted to the
string. -/
structure Message where
  type : MessageType
  context : Json
  content : Json
  to_user : Option Json := none
  from_user : Option Json := none
  session_id : Option Json := none
  timestamp : Option String := none
  id : Option Json := none

/-- The `cls(...)` construction at the end of `Message.from_dict`, given
the decoded pieces that can fail (`type`, `content`, `timestamp`). -/
def Message.build (data : List (String × Json)) (mt : MessageType)
    (content : Json) (ts : Option String) : Message :=
  { type := mt
    context := (lookupJ data "context").getD (Json.str "general")
    content := content
    to_user := lookupJ data "to_user"
    from_user := lookupJ data "from_user"
    session_id := lookupJ data "session_id"
    timestamp := ts
    id := lookupJ data "id" }

/-- `Message.from_dict` from `types.py`: decode a parsed JSON frame into a
`Message`.  Failure cases, in Python evaluation order of the keyword
arguments: `data` not a mapping (`.get` raises `AttributeError`), missing
`type` (`KeyError`), `type` not one of the enumerated values
(`ValueError`), missing `content` (`KeyError`), truthy non-string
`timestamp` (`AttributeError` on `.replace`).  All of these surface as an
exception out of `from_dict`, modelled as `Except.error`. -/
def Message.from_dict (j : Json) : Except String Message :=
  match j with
  | Json.obj data =>
    match lookupJ data "type" with
    | none => Except.error "KeyError: type"
    | some tv =>
      match tv with
      | Json.str ts =>
        match MessageType.fromString ts with
        | none => Except.error ("ValueError: " ++ ts ++ " is not a valid MessageType")
        | some mt =>
          match lookupJ data "content" with
          | none => Except.error "KeyError: content"
          | some content =>
            match lookupJ data "timestamp" with
            | some tsv =>
              if tsv.truthy then
                match tsv with
                | Json.str tss =>
                    Except.ok (Message.build data mt content
                      (some (tss.replace "Z" "+00:00")))
                | _ => Except.error "AttributeError: timestamp has no replace"
              else Except.ok (Message.build data mt content none)
            | none => Except.ok (Message.build data mt content none)
      | _ => Except.error "ValueError: type is not a valid MessageType"
  | _ => Except.error "AttributeError: data is not a mapping"

/-- `Message.to_dict` from `types.py`: the outbound frame.  It always
emits `type`, `context`, `content`, and emits `to_user` exactly when the
field `is not None` (note: tested against `None`, not for truthiness). -/
def Message.to_dict (m : Message) : List (String × Json) :=
  [("type", Json.str m.type.toWire), ("context", m.context), ("content", m.content)]
    ++ (match m.to_user with
        | some u => [("to_user", u)]
        | none => [])

/-- The SDK error taxonomy from `exceptions.py`, restricted to the kinds
the client engine raises or delivers (each carries its message string). -/
inductive SBError where
  | switchboard (msg : String)
  | connection (msg : String)
  | authentication (msg : String)
  | sessionNotFound (msg : String)
  | sessionEnded (msg : String)
  | reconnectionFailed (msg : String)
deriving DecidableEq, Repr

/-- A registered handler as the client sees it: its registration identity
and whether invoking it raises.  The same shape serves message handlers
(`Callable[[Message], ...]`), connection handlers (`Callable[[bool], ...]`)
and error handlers (`Callable[[Exception], ...]`), since the client only
calls them and catches their exceptions. -/
structure MHandler where
  hid : Nat
  fails : Bool
deriving DecidableEq, Repr

/-- The three handler registries of `SwitchboardClient`:
`self.message_handlers` (a dict keyed by `MessageType`, modelled as an
association list), `self.connection_handlers`, `self.error_handlers`.
Registration (`on_message` / `on_connection` / `on_error`) appends, so
each list is in registration order. -/
structure Handlers where
  message_handlers : List (MessageType × List MHandler) := []
  connection_handlers : List MHandler := []
  error_handlers : List MHandler := []

/-- `self.message_handlers.get(t)`: dict lookup on the registry. -/
def lookupHandlers (hs : List (MessageType × List MHandler)) (t : MessageType) :
    Option (List MHandler) :=
  match hs with
  | [] => none
  | (k, v) :: rest => if k = t then some v else lookupHandlers rest t

/-- Observable events of one client, in program order: handler
invocations, the `logger.error` fallback when a handler raises, and
socket / receive-task / reconnect-timer lifecycle actions. -/
inductive Ev where
  | msgHandlerRun (t : MessageType) (hid : Nat) (m : Message)
  | connHandlerRun (hid : Nat) (connected : Bool)
  | errHandlerRun (hid : Nat) (e : SBError)
  | handlerErrorLogged (hid : Nat)
  | socketOpened (sid : Nat)
  | socketClosed (sid : Nat)
  | receiveTaskStarted (tid : Nat)
  | receiveTaskCancelled (tid : Nat)
  | timerScheduled (tid : Nat) (delay : ℚ)
  | timerCancelled (tid : Nat)
  | sleep (d : ℚ)

/-- Whether an event is an error-handler invocation. -/
def Ev.isErrRun : Ev → Bool
  | .errHandlerRun _ _ => true
  | _ => false

/-- Whether an event is a message-handler invocation. -/
def Ev.isMsgRun : Ev → Bool
  | .msgHandlerRun _ _ _ => true
  | _ => false

/-- Whether an event is an error-handler invocation that delivers a
`ReconnectionFailedError`. -/
def Ev.isReconnFailed : Ev → Bool
  | .errHandlerRun _ (.reconnectionFailed _) => true
  | _ => false

/-- Whether an event is a connection-handler invocation with `False`. -/
def Ev.isConnFalseRun : Ev → Bool
  | .connHandlerRun _ b => !b
  | _ => false

/-- Whether an event is a cleanup action (socket close, receive-task
cancel, timer cancel). -/
def Ev.isCleanup : Ev → Bool
  | .socketClosed _ => true
  | .receiveTaskCancelled _ => true
  | .timerCancelled _ => true
  | _ => false

/-- The delays of the reconnect timers scheduled in a trace, in order. -/
def scheduledDelays (t : List Ev) : List ℚ :=
  t.filterMap fun e =>
    match e with
    | .timerScheduled _ d => some d
    | _ => none

/-- `SwitchboardClient._notify_message_handlers`: fan out to every handler
registered for the message's type, in registration order; a raising
handler is caught and logged (`logger.error`) and the loop continues.
Note the source does NOT forward the caught exception to the error
handlers. -/
def notify_message_handlers (H : Handlers) (m : Message) : List Ev :=
  match lookupHandlers H.message_handlers m.type with
  | none => []
  | some hs => hs.flatMap fun h =>
      Ev.msgHandlerRun m.type h.hid m ::
        (if h.fails then [Ev.handlerErrorLogged h.hid] else [])

/-- `SwitchboardClient._notify_connection_handlers`: fan out to every
connection handler with the flag; raising handlers are caught and
logged. -/
def notify_connection_handlers (H : Handlers) (b : Bool) : List Ev :=
  H.connection_handlers.flatMap fun h =>
    Ev.connHandlerRun h.hid b ::
      (if h.fails then [Ev.handlerErrorLogged h.hid] else [])

/-- `SwitchboardClient._notify_error_handlers`: fan out the error to every
error handler; raising error handlers are caught and logged (swallowed,
no recursion). -/
def notify_error_handlers (H : Handlers) (e : SBError) : List Ev :=
  H.error_handlers.flatMap fun h =>
    Ev.errHandlerRun h.hid e ::
      (if h.fails then [Ev.handlerErrorLogged h.hid] else [])

/-- The mutable state of one `SwitchboardClient` (its `__init__` fields),
plus a ledger of which external resources are currently live and a
fresh-id counter for newly created sockets/tasks/timers.  The `websocket`,
`receive_task` and `reconnect_task` fields are the attribute references
the Python object holds; they survive close/cancel (the code never resets
them to `None`), which is why liveness is tracked separately. -/
structure ClientState where
  user_id : String
  server_url : String
  role : Option String
  max_reconnect_attempts : Nat
  reconnect_delay : ℚ
  websocket : Option Nat := none
  current_session_id : Option String := none
  connected : Bool := false
  connection_start_time : Option Nat := none
  message_count : Nat := 0
  reconnect_attempts : Nat := 0
  receive_task : Option Nat := none
  reconnect_task : Option Nat := none
  shutdown : Bool := false
  openSockets : List Nat := []
  runningTasks : List Nat := []
  pendingTimers : List Nat := []
  nextId : Nat := 0
deriving DecidableEq, Repr

/-- `SwitchboardClient.__init__`: the initial state (no connection, no
tasks, zero counters; `server_url` normalization by `rstrip` is not
modelled, no claim depends on the URL text). -/
def initState (uid url : String) (role : Option String)
    (maxAttempts : Nat) (delay : ℚ) : ClientState :=
  { user_id := uid, server_url := url, role := role,
    max_reconnect_attempts := maxAttempts, reconnect_delay := delay }

/-- The guarded release used three times by `disconnect`: Python's
`if ref and not ref.done(): ref.cancel()` (tasks/timers) and
`if self.websocket: await self.websocket.close()` (where closing an
already-closed socket is a no-op).  `ref` is the attribute reference,
`live` the ledger of still-live resource ids; releasing removes the id
from the ledger and emits the corresponding event. -/
def releaseLedger (ref : Option Nat) (live : List Nat) (mk : Nat → Ev) :
    List Nat × List Ev :=
  match ref with
  | some i => if i ∈ live then (live.erase i, [mk i]) else (live, [])
  | none => (live, [])

/-- `SwitchboardClient.disconnect`: set the shutdown flag, cancel a
pending reconnect timer, cancel the receive task, close the socket if the
reference is set, drop `connected` and the session reference, then notify
connection handlers with `False`.  The notification is unconditional: it
happens on every call, connected or not. -/
def disconnect (H : Handlers) (s : ClientState) : ClientState × List Ev :=
  ({ s with
      shutdown := true,
      pendingTimers := (releaseLedger s.reconnect_task s.pendingTimers Ev.timerCancelled).1,
      runningTasks := (releaseLedger s.receive_task s.runningTasks Ev.receiveTaskCancelled).1,
      openSockets := (releaseLedger s.websocket s.openSockets Ev.socketClosed).1,
      connected := false,
      current_session_id := none },
   (releaseLedger s.reconnect_task s.pendingTimers Ev.timerCancelled).2
     ++ (releaseLedger s.receive_task s.runningTasks Ev.receiveTaskCancelled).2
     ++ (releaseLedger s.websocket s.openSockets Ev.socketClosed).2
     ++ notify_connection_handlers H false)

/-- Event extraction at the top of
`SwitchboardClient._handle_system_message`: the `event` key of the content
mapping when present, otherwise the message's `context` field if truthy. -/
def extractEvent (m : Message) : Option Json :=
  match m.content with
  | Json.obj fields =>
    match lookupJ fields "event" with
    | some v => some v
    | none => if m.context.truthy then some m.context else none
  | _ => if m.context.truthy then some m.context else none

/-- `SwitchboardClient._handle_system_message`.  On `session_ended`:
notify the message handlers with the raw system message, sleep `0.1`
seconds, set `_shutdown`, run `disconnect`, then deliver
`SessionEndedError("Session was ended")` to the error handlers, and
return (the `reason` field is extracted only for logging).  On
`history_complete`: log only.  On `message_error`: deliver a
`SwitchboardError` built from `content.get("message", ...)` — when
`content` is not a mapping this `.get` raises, which the model reports in
the `Option String` component (an exception escaping to the caller). -/
def handle_system_message (H : Handlers) (s : ClientState) (m : Message) :
    (ClientState × List Ev) × Option String :=
  match extractEvent m with
  | some (Json.str "session_ended") =>
      (((disconnect H { s with shutdown := true }).1,
        notify_message_handlers H m
          ++ [Ev.sleep (1 / 10)]
          ++ (disconnect H { s with shutdown := true }).2
          ++ notify_error_handlers H (SBError.sessionEnded "Session was ended")),
       none)
  | some (Json.str "history_complete") => ((s, []), none)
  | some (Json.str "message_error") =>
      match m.content with
      | Json.obj fields =>
          ((s, notify_error_handlers H (SBError.switchboard
              ("Server message error: "
                ++ ((lookupJ fields "message").getD
                      (Json.str "Unknown message error")).display))),
           none)
      | _ => ((s, []), some "AttributeError: content has no get")
  | _ => ((s, []), none)

/-- `SwitchboardClient._attempt_reconnection`: if shutting down or the
attempt counter has reached `max_reconnect_attempts`, deliver
`ReconnectionFailedError` to the error handlers and stop; otherwise
increment the counter, compute `delay = reconnect_delay *
2 ** (attempts - 1)` and schedule a one-shot reconnect timer
(`self._reconnect_task = asyncio.create_task(...)`; note the reference is
overwritten without cancelling a previous timer). -/
def attempt_reconnection (H : Handlers) (s : ClientState) : ClientState × List Ev :=
  if s.shutdown = true ∨ s.max_reconnect_attempts ≤ s.reconnect_attempts then
    (s, notify_error_handlers H (SBError.reconnectionFailed
      ("Failed to reconnect after "
        ++ toString s.max_reconnect_attempts ++ " attempts")))
  else
    ({ s with
        reconnect_attempts := s.reconnect_attempts + 1,
        reconnect_task := some s.nextId,
        pendingTimers := s.nextId :: s.pendingTimers,
        nextId := s.nextId + 1 },
     [Ev.timerScheduled s.nextId
        (s.reconnect_delay * 2 ^ (s.reconnect_attempts + 1 - 1))])

/-- The outcome of one `websockets.connect(ws_url)` call, an input of the
environment: success, a `ConnectionClosedError` carrying a close code, or
any other exception. -/
inductive ConnectOutcome where
  | success
  | closedWithCode (code : Nat)
  | otherFailure (msg : String)
deriving DecidableEq, Repr

/-- `SwitchboardClient._establish_connection`: require a truthy session
id, then open the socket.  On success: store the socket, set `connected`,
record the connect wall-clock time, zero the attempt and message
counters, start the receive task, notify connection handlers with `True`.
On `ConnectionClosedError`, map close code 403 to `AuthenticationError`,
404 to `SessionNotFoundError`, others to `ConnectionError`; any other
exception maps to `ConnectionError`.  All failures re-raise to the caller
(the `Option SBError` component) and leave the state untouched.  Note the
success path never closes a previous socket nor cancels a previous
receive task: it only overwrites the references. -/
def establish_connection (H : Handlers) (s : ClientState)
    (o : ConnectOutcome) (now : Nat) :
    (ClientState × List Ev) × Option SBError :=
  if s.current_session_id = none ∨ s.current_session_id = some "" then
    ((s, []), some (SBError.switchboard "No session ID set"))
  else
    match o with
    | ConnectOutcome.success =>
        (({ s with
              websocket := some s.nextId,
              openSockets := s.nextId :: s.openSockets,
              connected := true,
              connection_start_time := some now,
              reconnect_attempts := 0,
              message_count := 0,
              receive_task := some (s.nextId + 1),
              runningTasks := (s.nextId + 1) :: s.runningTasks,
              nextId := s.nextId + 2 },
          [Ev.socketOpened s.nextId, Ev.receiveTaskStarted (s.nextId + 1)]
            ++ notify_connection_handlers H true),
         none)
    | ConnectOutcome.closedWithCode c =>
        if c = 403 then
          ((s, []), some (SBError.authentication "Not authorized for this session"))
        else if c = 404 then
          ((s, []), some (SBError.sessionNotFound "Session not found or ended"))
        else
          ((s, []), some (SBError.connection "WebSocket connection failed"))
    | ConnectOutcome.otherFailure msg =>
        ((s, []), some (SBError.connection ("Failed to connect: " ++ msg)))

/-- `SwitchboardClient.connect`: require a role, store the session id,
clear the shutdown flag, and run the connect sequence.  Failures raise
synchronously to the caller. -/
def connect (H : Handlers) (s : ClientState) (sid : String)
    (o : ConnectOutcome) (now : Nat) :
    (ClientState × List Ev) × Option SBError :=
  if s.role = none then
    ((s, []), some (SBError.switchboard "Role must be set before connecting"))
  else
    establish_connection H
      { s with current_session_id := some sid, shutdown := false } o now

/-- The body of `SwitchboardClient._delayed_reconnect` after its
`asyncio.sleep(delay)` completes (the state is taken at firing time, the
fired timer no longer pending): if not shutting down, re-run
`_establish_connection`; ANY exception from it — including the terminal
`AuthenticationError` / `SessionNotFoundError` — is caught, logged, and
answered by calling `_attempt_reconnection` again. -/
def delayed_reconnect (H : Handlers) (s : ClientState)
    (o : ConnectOutcome) (now : Nat) : ClientState × List Ev :=
  if s.shutdown then (s, [])
  else
    match (establish_connection H s o now).2 with
    | none => (establish_connection H s o now).1
    | some _ =>
        ((attempt_reconnection H (establish_connection H s o now).1.1).1,
         (establish_connection H s o now).1.2
           ++ (attempt_reconnection H (establish_connection H s o now).1.1).2)

/-- The `except ConnectionClosed` arm of
`SwitchboardClient._receive_messages`: mark disconnected and, unless an
explicit shutdown was requested, hand off to the reconnection policy. -/
def on_connection_closed (H : Handlers) (s : ClientState) : ClientState × List Ev :=
  if ({ s with connected := false } : ClientState).shutdown then
    ({ s with connected := false }, [])
  else attempt_reconnection H { s with connected := false }

/-- The per-frame body of the receive loop in
`SwitchboardClient._receive_messages`: decode the frame (`json.loads` +
`Message.from_dict`); on any decode/processing exception, deliver a
`SwitchboardError` to the error handlers and keep the loop alive; on
success, increment the message counter, route `system` messages through
`_handle_system_message` (whose own uncaught exception is caught by the
same `except` arm), and then — unconditionally, even after
`_handle_system_message` returned from its `session_ended` branch —
notify the message handlers keyed by the message type. -/
def process_frame (H : Handlers) (s : ClientState) (frame : Json) :
    ClientState × List Ev :=
  match Message.from_dict frame with
  | Except.error e =>
      (s, notify_error_handlers H
            (SBError.switchboard ("Message processing failed: " ++ e)))
  | Except.ok m =>
      if m.type = MessageType.system then
        match (handle_system_message H { s with message_count := s.message_count + 1 } m).2 with
        | some ex =>
            ((handle_system_message H { s with message_count := s.message_count + 1 } m).1.1,
             (handle_system_message H { s with message_count := s.message_count + 1 } m).1.2
               ++ notify_error_handlers H
                    (SBError.switchboard ("Message processing failed: " ++ ex)))
        | none =>
            ((handle_system_message H { s with message_count := s.message_count + 1 } m).1.1,
             (handle_system_message H { s with message_count := s.message_count + 1 } m).1.2
               ++ notify_message_handlers H m)
      else
        ({ s with message_count := s.message_count + 1 },
         notify_message_handlers H m)

/-- Whether the client's current socket reference is a live (open)
socket: the condition for `async for raw_message in self.websocket` to
keep yielding frames. -/
def socketOpen (s : ClientState) : Bool :=
  match s.websocket with
  | some w => w ∈ s.openSockets
  | none => false

/-- The receive loop of `SwitchboardClient._receive_messages` over a
queue of already-parsed inbound frames: process each frame in turn,
stopping when the socket is no longer open (the `async for` ends then). -/
def receive_loop (H : Handlers) (s : ClientState) (frames : List Json) :
    ClientState × List Ev :=
  match frames with
  | [] => (s, [])
  | f :: rest =>
      if socketOpen (process_frame H s f).1 then
        ((receive_loop H (process_frame H s f).1 rest).1,
         (process_frame H s f).2 ++ (receive_loop H (process_frame H s f).1 rest).2)
      else ((process_frame H s f).1, (process_frame H s f).2)

/-- `ConnectionStatus` dataclass from `types.py` (the `last_heartbeat`
field is never set by the client and is omitted). -/
structure ConnectionStatus where
  connected : Bool
  session_id : Option String := none
  user_id : Option String := none
  role : Option String := none
  message_count : Nat := 0
  uptime_seconds : Nat := 0
deriving DecidableEq, Repr

/-- `SwitchboardClient.get_status`: a read-only snapshot; uptime is the
wall-clock delta from `connection_start_time` (`int(time.time() - start)`)
when that is truthy (set and nonzero), else `0`. -/
def get_status (s : ClientState) (now : Nat) : ConnectionStatus :=
  { connected := s.connected,
    session_id := s.current_session_id,
    user_id := some s.user_id,
    role := s.role,
    message_count := s.message_count,
    uptime_seconds :=
      match s.connection_start_time with
      | some t0 => if t0 = 0 then 0 else now - t0
      | none => 0 }

/-- The chain of consecutive unexpected drops with no successful
reconnection in between: an initial unexpected socket closure
(`on_connection_closed`), after which each pending timer fires and the
re-connect attempt fails with outcome `o` (`delayed_reconnect`), `n`
times.  Returns the final state and the concatenated trace. -/
def reconnectChain (H : Handlers) (o : ConnectOutcome) (now : Nat)
    (s : ClientState) : Nat → ClientState × List Ev
  | 0 => on_connection_closed H s
  | n + 1 =>
      ((delayed_reconnect H (reconnectChain H o now s n).1 o now).1,
       (reconnectChain H o now s n).2
         ++ (delayed_reconnect H (reconnectChain H o now s n).1 o now).2)

/-- Whether decoding failed (the frame never yields a `Message`). -/
def isDecodeError : Except String Message → Bool
  | Except.error _ => true
  | Except.ok _ => false

/-! ### Concrete fixtures

A registry with one handler of each kind, a connected client state, and
the frames/messages the concrete claims are evaluated on. -/

/-- A registry with one system-message handler (id 10), one connection
handler (id 20) and one error handler (id 30), none of which raises. -/
def Hmain : Handlers :=
  { message_handlers := [(MessageType.system, [⟨10, false⟩])],
    connection_handlers := [⟨20, false⟩],
    error_handlers := [⟨30, false⟩] }

/-- A client connected to session `sess1`: socket 1 open, receive task 2
running, connected since wall-clock 100. -/
def sConn : ClientState :=
  { initState "u1" "http://localhost:8080" (some "student") 5 1 with
    websocket := some 1, openSockets := [1],
    receive_task := some 2, runningTasks := [2],
    current_session_id := some "sess1", connected := true,
    connection_start_time := some 100, nextId := 3 }

/-- The client amid reconnection: socket lost, one attempt already made. -/
def sMid : ClientState :=
  { sConn with connected := false, reconnect_attempts := 1, openSockets := [] }

/-- The client amid reconnection with two attempts already made. -/
def sAttempts2 : ClientState :=
  { sConn with connected := false, reconnect_attempts := 2, openSockets := [] }

/-- A freshly constructed client (student role, default backoff). -/
def sInit : ClientState := initState "u1" "http://localhost:8080" (some "student") 5 1

/-- The `session_ended` system frame with reason `timeout`. -/
def frameEnd : Json :=
  Json.obj [("type", Json.str "system"), ("context", Json.str "general"),
            ("content", Json.obj [("event", Json.str "session_ended"),
                                  ("reason", Json.str "timeout")])]

/-- The decoded form of `frameEnd`. -/
def mEnd : Message :=
  { type := MessageType.system, context := Json.str "general",
    content := Json.obj [("event", Json.str "session_ended"),
                         ("reason", Json.str "timeout")] }

/-- A frame whose `type` value is not one of the seven enumerated
message types. -/
def frameBadType : Json :=
  Json.obj [("type", Json.str "bogus"), ("content", Json.obj [])]

/-- A well-formed `request` frame lacking a `context` field. -/
def frameNoCtx : Json :=
  Json.obj [("type", Json.str "request"), ("content", Json.obj [])]

/-- The decoded form of `frameNoCtx`: its context defaulted. -/
def mNoCtx : Message :=
  { type := MessageType.request, context := Json.str "general",
    content := Json.obj [] }

/-- A registry with two handlers for `request` — the first raises — and
one error handler. -/
def H5f : Handlers :=
  { message_handlers := [(MessageType.request, [⟨1, true⟩, ⟨2, false⟩])],
    error_handlers := [⟨9, false⟩] }

/-- A `request` message used to exercise the dispatch path. -/
def m5 : Message :=
  { type := MessageType.request, context := Json.str "general",
    content := Json.obj [] }

/-- A message whose `to_user` is set to the empty string. -/
def m9 : Message :=
  { type := MessageType.request, context := Json.str "general",
    content := Json.obj [], to_user := some (Json.str "") }

/-! ### Helper lemmas about handler fan-out and resource release -/

/-- A connection-handler fan-out contains only `connHandlerRun` and
`handlerErrorLogged` events: any predicate false on both filters it to
nothing. -/
theorem notify_conn_filter_none (H : Handlers) (b : Bool) (p : Ev → Bool)
    (h1 : ∀ i, p (Ev.connHandlerRun i b) = false)
    (h2 : ∀ i, p (Ev.handlerErrorLogged i) = false) :
    (notify_connection_handlers H b).filter p = [] := by
  unfold notify_connection_handlers
  generalize H.connection_handlers = l
  induction l with
  | nil => rfl
  | cons h t ih =>
      cases hf : h.fails <;>
        simp [List.flatMap_cons, List.filter_append, List.filter_cons, hf, h1, h2, ih]

/-- A guarded release emits only the `mk`-event: any predicate false on
`mk` filters its trace to nothing. -/
theorem releaseLedger_filter_none (r : Option Nat) (l : List Nat) (mk : Nat → Ev)
    (p : Ev → Bool) (h : ∀ i, p (mk i) = false) :
    ((releaseLedger r l mk).2).filter p = [] := by
  cases r with
  | none => rfl
  | some i =>
      unfold releaseLedger
      by_cases hm : i ∈ l <;> simp [hm, h]

/-- Releasing a second time with the same reference is a no-op on a
duplicate-free ledger: the id was already erased (or was never live). -/
theorem releaseLedger_idem (r : Option Nat) (l : List Nat) (mk : Nat → Ev)
    (h : l.Nodup) :
    releaseLedger r (releaseLedger r l mk).1 mk = ((releaseLedger r l mk).1, []) := by
  cases r with
  | none => rfl
  | some i =>
      unfold releaseLedger
      by_cases hm : i ∈ l
      · have hni : i ∉ l.erase i := by simp [h.mem_erase_iff]
        simp [hm, hni]
      · simp [hm]

/-- `disconnect` never invokes error handlers: its trace filters to
nothing under `isErrRun`. -/
theorem disconnect_filter_errRun (H : Handlers) (s : ClientState) :
    ((disconnect H s).2).filter Ev.isErrRun = [] := by
  simp only [disconnect, List.filter_append]
  rw [releaseLedger_filter_none _ _ _ _ (fun i => rfl),
      releaseLedger_filter_none _ _ _ _ (fun i => rfl),
      releaseLedger_filter_none _ _ _ _ (fun i => rfl),
      notify_conn_filter_none H false Ev.isErrRun (fun i => rfl) (fun i => rfl)]
  rfl

/-- A message-handler fan-out runs every registered handler in
registration order: filtering its trace to the invocation events yields
exactly one `msgHandlerRun` per handler, in list order, regardless of
which handlers fail. -/
theorem msgFlat_filter_msgRun (t : MessageType) (m : Message) (l : List MHandler) :
    (l.flatMap fun h => Ev.msgHandlerRun t h.hid m ::
        (if h.fails then [Ev.handlerErrorLogged h.hid] else [])).filter Ev.isMsgRun
      = l.map fun h => Ev.msgHandlerRun t h.hid m := by
  induction l with
  | nil => rfl
  | cons h tl ih =>
      cases hf : h.fails <;>
        simp [List.flatMap_cons, List.filter_append, List.filter_cons, hf, Ev.isMsgRun, ih]

/-- A message-handler fan-out never invokes error handlers, whatever
fails. -/
theorem msgFlat_filter_errRun (t : MessageType) (m : Message) (l : List MHandler) :
    (l.flatMap fun h => Ev.msgHandlerRun t h.hid m ::
        (if h.fails then [Ev.handlerErrorLogged h.hid] else [])).filter Ev.isErrRun
      = [] := by
  induction l with
  | nil => rfl
  | cons h tl ih =>
      cases hf : h.fails <;>
        simp [List.flatMap_cons, List.filter_append, List.filter_cons, hf, Ev.isErrRun, ih]

/-- One non-terminal reconnection attempt, in closed form: below the
maximum and not shutting down, the counter increments and exactly one
timer is scheduled with the next exponential-backoff delay. -/
theorem attempt_reconnection_step (H : Handlers) (s : ClientState)
    (h1 : s.shutdown = false) (h2 : s.reconnect_attempts < s.max_reconnect_attempts) :
    attempt_reconnection H s
      = ({ s with reconnect_attempts := s.reconnect_attempts + 1,
                  reconnect_task := some s.nextId,
                  pendingTimers := s.nextId :: s.pendingTimers,
                  nextId := s.nextId + 1 },
         [Ev.timerScheduled s.nextId (s.reconnect_delay * 2 ^ s.reconnect_attempts)]) := by
  have hcond : ¬ (s.shutdown = true ∨ s.max_reconnect_attempts ≤ s.reconnect_attempts) := by
    simp [h1]; omega
  unfold attempt_reconnection
  rw [if_neg hcond]
  rfl

/-- A failing `_establish_connection` with close code 403, in closed
form: state untouched, no events, `AuthenticationError` raised. -/
theorem establish_connection_forbidden (H : Handlers) (s : ClientState) (now : Nat)
    (hs1 : s.current_session_id ≠ none) (hs2 : s.current_session_id ≠ some "") :
    establish_connection H s (ConnectOutcome.closedWithCode 403) now
      = ((s, []), some (SBError.authentication "Not authorized for this session")) := by
  have hcond : ¬ (s.current_session_id = none ∨ s.current_session_id = some "") := by
    simp [hs1, hs2]
  unfold establish_connection
  rw [if_neg hcond]
  rfl

/-! ### Claims -/

/-- Claim C1.  Processing a received system frame whose content carries
`event = "session_ended"` produces, in order: the system-message handlers
invoked with the original message, the 0.1 s grace sleep, the receive
task cancelled, the socket closed, the connection handlers invoked with
`false`, the error handlers invoked with `SessionEndedError` — and then a
SECOND invocation of the system-message handlers with the same message,
because the `return` in `_handle_system_message` only exits that helper
while `_receive_messages` still runs its unconditional
`_notify_message_handlers` afterwards.  The message handlers therefore
run twice, not exactly once as the claim (and the code's own comment
"Skip the normal message handler notification below") requires. -/
theorem C1_session_ended_trace :
    (process_frame Hmain sConn frameEnd).2
      = [Ev.msgHandlerRun MessageType.system 10 mEnd,
         Ev.sleep (1 / 10),
         Ev.receiveTaskCancelled 2,
         Ev.socketClosed 1,
         Ev.connHandlerRun 20 false,
         Ev.errHandlerRun 30 (SBError.sessionEnded "Session was ended"),
         Ev.msgHandlerRun MessageType.system 10 mEnd]
    ∧ ((process_frame Hmain sConn frameEnd).2.filter Ev.isMsgRun).length = 2 :=
  ⟨rfl, rfl⟩

/-- Claim C2, counterexample.  Calling `disconnect()` twice in succession
on a connected client notifies the connection handlers with `false`
twice, not exactly once: the notification at the end of `disconnect` is
unconditional. -/
theorem C2_counterexample :
    (((disconnect Hmain sConn).2
        ++ (disconnect Hmain (disconnect Hmain sConn).1).2).filter
          Ev.isConnFalseRun).length = 2 :=
  rfl

/-- Claim C2, amended.  A second `disconnect()` right after a first one
is a no-op on the client state (nothing further to cancel or close, all
flags already set) and raises or reports no error — but it again notifies
the connection handlers with `false`, so the two calls produce exactly
two `false` notifications rather than one. -/
theorem C2_disconnect_second_call (H : Handlers) (s : ClientState)
    (hT : s.pendingTimers.Nodup) (hK : s.runningTasks.Nodup)
    (hS : s.openSockets.Nodup) :
    (disconnect H (disconnect H s).1).1 = (disconnect H s).1
    ∧ (disconnect H (disconnect H s).1).2 = notify_connection_handlers H false
    ∧ ((disconnect H s).2).filter Ev.isErrRun = []
    ∧ ((disconnect H (disconnect H s).1).2).filter Ev.isErrRun = [] := by
  have h1 := releaseLedger_idem s.reconnect_task s.pendingTimers Ev.timerCancelled hT
  have h2 := releaseLedger_idem s.receive_task s.runningTasks Ev.receiveTaskCancelled hK
  have h3 := releaseLedger_idem s.websocket s.openSockets Ev.socketClosed hS
  refine ⟨?_, ?_, disconnect_filter_errRun H s, disconnect_filter_errRun H _⟩
  · show ({ (disconnect H s).1 with
        shutdown := true,
        pendingTimers := (releaseLedger s.reconnect_task
          (releaseLedger s.reconnect_task s.pendingTimers Ev.timerCancelled).1
          Ev.timerCancelled).1,
        runningTasks := (releaseLedger s.receive_task
          (releaseLedger s.receive_task s.runningTasks Ev.receiveTaskCancelled).1
          Ev.receiveTaskCancelled).1,
        openSockets := (releaseLedger s.websocket
          (releaseLedger s.websocket s.openSockets Ev.socketClosed).1
          Ev.socketClosed).1,
        connected := false,
        current_session_id := none } : ClientState) = (disconnect H s).1
    rw [h1, h2, h3]
    rfl
  · show (releaseLedger s.reconnect_task
          (releaseLedger s.reconnect_task s.pendingTimers Ev.timerCancelled).1
          Ev.timerCancelled).2
        ++ (releaseLedger s.receive_task
          (releaseLedger s.receive_task s.runningTasks Ev.receiveTaskCancelled).1
          Ev.receiveTaskCancelled).2
        ++ (releaseLedger s.websocket
          (releaseLedger s.websocket s.openSockets Ev.socketClosed).1
          Ev.socketClosed).2
        ++ notify_connection_handlers H false
      = notify_connection_handlers H false
    rw [h1, h2, h3]
    rfl

/-- Claim C2, witness: the amended statement evaluated on the concrete
connected client. -/
theorem C2_witness :
    (disconnect Hmain (disconnect Hmain sConn).1).1 = (disconnect Hmain sConn).1
    ∧ (disconnect Hmain (disconnect Hmain sConn).1).2
        = notify_connection_handlers Hmain false
    ∧ ((disconnect Hmain sConn).2).filter Ev.isErrRun = []
    ∧ ((disconnect Hmain (disconnect Hmain sConn).1).2).filter Ev.isErrRun = [] :=
  C2_disconnect_second_call Hmain sConn (by decide) (by decide) (by decide)

/-- Claim C3.  With `reconnect_delay = 1.0` and
`max_reconnect_attempts = 5`, the chain of consecutive unexpected drops
(initial socket loss, then each retry failing) schedules exactly the
delays `1, 2, 4, 8, 16` seconds over the first five attempts; the sixth
drop delivers `ReconnectionFailedError` to the error handlers and
schedules nothing further.  In general, when not shutting down and below
the maximum, an attempt increments the counter to `n = attempts + 1` and
schedules exactly one timer with delay
`reconnect_delay * 2 ^ (n - 1)`. -/
theorem C3_backoff :
    (scheduledDelays (reconnectChain Hmain (ConnectOutcome.otherFailure "net down") 0 sConn 4).2
        = [1, 2, 4, 8, 16]
      ∧ scheduledDelays (reconnectChain Hmain (ConnectOutcome.otherFailure "net down") 0 sConn 5).2
        = [1, 2, 4, 8, 16]
      ∧ ((reconnectChain Hmain (ConnectOutcome.otherFailure "net down") 0 sConn 5).2.filter
          Ev.isReconnFailed).length = 1
      ∧ ((reconnectChain Hmain (ConnectOutcome.otherFailure "net down") 0 sConn 4).2.filter
          Ev.isReconnFailed).length = 0)
    ∧ (∀ (H : Handlers) (s : ClientState),
        s.shutdown = false → s.reconnect_attempts < s.max_reconnect_attempts →
        (attempt_reconnection H s).1.reconnect_attempts = s.reconnect_attempts + 1
        ∧ scheduledDelays (attempt_reconnection H s).2
            = [s.reconnect_delay * 2 ^ s.reconnect_attempts]) := by
  constructor
  · refine ⟨?_, ?_, rfl, rfl⟩
    · have h : scheduledDelays
          (reconnectChain Hmain (ConnectOutcome.otherFailure "net down") 0 sConn 4).2
          = [(1 : ℚ) * 2 ^ (0 : ℕ), (1 : ℚ) * 2 ^ (1 : ℕ), (1 : ℚ) * 2 ^ (2 : ℕ),
             (1 : ℚ) * 2 ^ (3 : ℕ), (1 : ℚ) * 2 ^ (4 : ℕ)] := rfl
      rw [h]; norm_num
    · have h : scheduledDelays
          (reconnectChain Hmain (ConnectOutcome.otherFailure "net down") 0 sConn 5).2
          = [(1 : ℚ) * 2 ^ (0 : ℕ), (1 : ℚ) * 2 ^ (1 : ℕ), (1 : ℚ) * 2 ^ (2 : ℕ),
             (1 : ℚ) * 2 ^ (3 : ℕ), (1 : ℚ) * 2 ^ (4 : ℕ)] := rfl
      rw [h]; norm_num
  · intro H s h1 h2
    rw [attempt_reconnection_step H s h1 h2]
    exact ⟨rfl, rfl⟩

/-- Claim C3, witness: the general backoff statement evaluated on the
client amid reconnection with two attempts made — the third attempt's
delay is `1.0 * 2 ^ 2 = 4`. -/
theorem C3_witness :
    (attempt_reconnection Hmain sAttempts2).1.reconnect_attempts = 3
    ∧ scheduledDelays (attempt_reconnection Hmain sAttempts2).2 = [4] := by
  have h := C3_backoff.2 Hmain sAttempts2 rfl (by decide)
  refine ⟨h.1, ?_⟩
  rw [h.2]
  have h4 : sAttempts2.reconnect_delay * 2 ^ sAttempts2.reconnect_attempts
      = (1 : ℚ) * 2 ^ (2 : ℕ) := rfl
  rw [h4]
  norm_num

/-- Claim C4, counterexample.  A forbidden-code closure (403) during
reconnection IS retried: `_delayed_reconnect` catches the
`AuthenticationError` raised by `_establish_connection` and calls
`_attempt_reconnection` again, which increments the attempt counter and
schedules a new reconnect timer; no `AuthenticationError` reaches the
error handlers.  This contradicts the claim's "on any connection attempt
(initial or during reconnection)". -/
theorem C4_counterexample :
    (delayed_reconnect Hmain sMid (ConnectOutcome.closedWithCode 403) 0).1.reconnect_attempts = 2
    ∧ scheduledDelays (delayed_reconnect Hmain sMid (ConnectOutcome.closedWithCode 403) 0).2 = [2]
    ∧ ((delayed_reconnect Hmain sMid (ConnectOutcome.closedWithCode 403) 0).2.filter
        Ev.isErrRun) = [] := by
  refine ⟨rfl, ?_, rfl⟩
  have h : scheduledDelays (delayed_reconnect Hmain sMid (ConnectOutcome.closedWithCode 403) 0).2
      = [(1 : ℚ) * 2 ^ (1 : ℕ)] := rfl
  rw [h]; norm_num

/-- Claim C4, amended.  Only on the direct `connect()` path is a
forbidden-code closure terminal: it raises `AuthenticationError`
synchronously to the caller, schedules no reconnect timer, and leaves the
attempt counter (and the set of pending timers) unchanged.  During
automatic reconnection, by contrast, a forbidden-code closure is caught
inside `_delayed_reconnect` and retried like any other failure: the
attempt counter increments, a new timer is scheduled with the next
backoff delay, and no error reaches the error handlers. -/
theorem C4_forbidden_paths :
    (∀ (H : Handlers) (s : ClientState) (sid : String) (now : Nat),
        s.role ≠ none → sid ≠ "" →
        (connect H s sid (ConnectOutcome.closedWithCode 403) now).2
            = some (SBError.authentication "Not authorized for this session")
        ∧ (connect H s sid (ConnectOutcome.closedWithCode 403) now).1.1.reconnect_attempts
            = s.reconnect_attempts
        ∧ (connect H s sid (ConnectOutcome.closedWithCode 403) now).1.1.pendingTimers
            = s.pendingTimers
        ∧ scheduledDelays (connect H s sid (ConnectOutcome.closedWithCode 403) now).1.2 = [])
    ∧ (∀ (H : Handlers) (s : ClientState) (now : Nat),
        s.shutdown = false → s.current_session_id ≠ none → s.current_session_id ≠ some "" →
        s.reconnect_attempts < s.max_reconnect_attempts →
        (delayed_reconnect H s (ConnectOutcome.closedWithCode 403) now).1.reconnect_attempts
            = s.reconnect_attempts + 1
        ∧ scheduledDelays (delayed_reconnect H s (ConnectOutcome.closedWithCode 403) now).2
            = [s.reconnect_delay * 2 ^ s.reconnect_attempts]
        ∧ ((delayed_reconnect H s (ConnectOutcome.closedWithCode 403) now).2.filter
            Ev.isErrRun) = []) := by
  constructor
  · intro H s sid now hrole hsid
    have hcond : ¬ ((some sid : Option String) = none ∨ (some sid : Option String) = some "") := by
      simp [hsid]
    simp only [connect, establish_connection]
    rw [if_neg hrole, if_neg hcond]
    exact ⟨rfl, rfl, rfl, rfl⟩
  · intro H s now hsd hsess1 hsess2 hatt
    have hest := establish_connection_forbidden H s now hsess1 hsess2
    have hstep := attempt_reconnection_step H s hsd hatt
    unfold delayed_reconnect
    rw [hest, hsd]
    simp only [Bool.false_eq_true, if_false]
    rw [hstep]
    exact ⟨rfl, rfl, rfl⟩

/-- Claim C4, witness: both branches evaluated concretely — the direct
connect with a 403 closure on the connected client, and the reconnection
retry on the client amid reconnection. -/
theorem C4_witness :
    ((connect Hmain sConn "sess1" (ConnectOutcome.closedWithCode 403) 0).2
        = some (SBError.authentication "Not authorized for this session")
      ∧ (connect Hmain sConn "sess1" (ConnectOutcome.closedWithCode 403) 0).1.1.reconnect_attempts
        = 0
      ∧ scheduledDelays (connect Hmain sConn "sess1" (ConnectOutcome.closedWithCode 403) 0).1.2
        = [])
    ∧ ((delayed_reconnect Hmain sMid (ConnectOutcome.closedWithCode 403) 7).1.reconnect_attempts
        = 2) := by
  have h1 := C4_forbidden_paths.1 Hmain sConn "sess1" 0 (by decide) (by decide)
  have h2 := C4_forbidden_paths.2 Hmain sMid 7 rfl (by decide) (by decide) (by decide)
  exact ⟨⟨h1.1, h1.2.1, h1.2.2.2⟩, h2.1⟩

/-- Claim C5, counterexample.  With a raising first handler, a second
handler, and a registered error handler, the dispatch trace shows the
failure is only logged: both handlers run in order, but the error-handler
path is never invoked — contradicting "reported through the error-handler
path" (the isolation part of the claim does hold). -/
theorem C5_counterexample :
    H5f.error_handlers = [⟨9, false⟩]
    ∧ notify_message_handlers H5f m5
        = [Ev.msgHandlerRun MessageType.request 1 m5, Ev.handlerErrorLogged 1,
           Ev.msgHandlerRun MessageType.request 2 m5]
    ∧ (notify_message_handlers H5f m5).filter Ev.isErrRun = [] :=
  ⟨rfl, rfl, rfl⟩

/-- Claim C5, amended.  For every registry and dispatched message, every
handler registered for the message's type is invoked, in registration
order, regardless of which handlers raise, and no failure propagates out
of the dispatcher (it is total); but a handler's failure is only caught
and logged (`logger.error`) — it is never delivered to the error-handler
path.  Failures of error handlers themselves are likewise swallowed. -/
theorem C5_handler_isolation (H : Handlers) (m : Message) :
    (notify_message_handlers H m).filter Ev.isMsgRun
      = ((lookupHandlers H.message_handlers m.type).getD []).map
          (fun h => Ev.msgHandlerRun m.type h.hid m)
    ∧ (notify_message_handlers H m).filter Ev.isErrRun = [] := by
  unfold notify_message_handlers
  cases hl : lookupHandlers H.message_handlers m.type with
  | none => simp
  | some hs =>
      simp only [Option.getD_some]
      exact ⟨msgFlat_filter_msgRun m.type m hs, msgFlat_filter_errRun m.type m hs⟩

/-- Claim C6.  (a) Decoding a frame whose `type` value is not one of the
seven enumerated message types fails: it never yields a `Message`.
(b) In the receive loop, a frame that fails decoding is answered by
delivering a `SwitchboardError` to the error handlers, the state is
untouched, and the loop continues with the remaining frames.  (c) A frame
lacking a `context` field decodes with context `"general"`. -/
theorem C6_decode_errors :
    (∀ (fs : List (String × Json)) (v : Json),
        lookupJ fs "type" = some v → jsonIsValidType v = false →
        isDecodeError (Message.from_dict (Json.obj fs)) = true)
    ∧ (∀ (H : Handlers) (s : ClientState) (f : Json) (rest : List Json) (e : String),
        Message.from_dict f = Except.error e → socketOpen s = true →
        receive_loop H s (f :: rest)
          = ((receive_loop H s rest).1,
             notify_error_handlers H
                 (SBError.switchboard ("Message processing failed: " ++ e))
               ++ (receive_loop H s rest).2))
    ∧ (∀ (fs : List (String × Json)) (mr : Message),
        lookupJ fs "context" = none →
        Message.from_dict (Json.obj fs) = Except.ok mr →
        mr.context = Json.str "general") := by
  refine ⟨?_, ?_, ?_⟩
  · intro fs v h hv
    cases v with
    | str ts =>
        have hn : MessageType.fromString ts = none := by
          cases hfs : MessageType.fromString ts with
          | none => rfl
          | some t => simp [jsonIsValidType, hfs] at hv
        simp [Message.from_dict, h, hn, isDecodeError]
    | null => simp [Message.from_dict, h, isDecodeError]
    | bool b => simp [Message.from_dict, h, isDecodeError]
    | num n => simp [Message.from_dict, h, isDecodeError]
    | arr xs => simp [Message.from_dict, h, isDecodeError]
    | obj gs => simp [Message.from_dict, h, isDecodeError]
  · intro H s f rest e hf hso
    have hp : process_frame H s f
        = (s, notify_error_handlers H
              (SBError.switchboard ("Message processing failed: " ++ e))) := by
      simp [process_frame, hf]
    simp [receive_loop, hp, hso]
  · intro fs mr hc hok
    simp only [Message.from_dict] at hok
    split at hok
    · exact absurd hok (by simp)
    · split at hok
      · split at hok
        · exact absurd hok (by simp)
        · split at hok
          · exact absurd hok (by simp)
          · split at hok
            · split at hok
              · split at hok
                · injection hok with h
                  subst h
                  simp [Message.build, hc]
                · exact absurd hok (by simp)
              · injection hok with h
                subst h
                simp [Message.build, hc]
            · injection hok with h
              subst h
              simp [Message.build, hc]
      · exact absurd hok (by simp)

/-- Claim C6, witness: the three statements evaluated concretely — the
frame with type `"bogus"` fails decoding; with it at the head of the
inbound queue of the connected client, the loop reports the error and
continues with the well-formed `request` frame; that `request` frame,
which lacks a `context` field, decodes with context `"general"`. -/
theorem C6_witness :
    isDecodeError (Message.from_dict frameBadType) = true
    ∧ receive_loop Hmain sConn [frameBadType, frameNoCtx]
        = ((receive_loop Hmain sConn [frameNoCtx]).1,
           notify_error_handlers Hmain
               (SBError.switchboard ("Message processing failed: "
                  ++ "ValueError: bogus is not a valid MessageType"))
             ++ (receive_loop Hmain sConn [frameNoCtx]).2)
    ∧ mNoCtx.context = Json.str "general" := by
  obtain ⟨ha, hb, hc⟩ := C6_decode_errors
  refine ⟨ha [("type", Json.str "bogus"), ("content", Json.obj [])]
            (Json.str "bogus") rfl rfl, ?_, ?_⟩
  · exact hb Hmain sConn frameBadType [frameNoCtx]
      "ValueError: bogus is not a valid MessageType" rfl rfl
  · exact hc [("type", Json.str "request"), ("content", Json.obj [])] mNoCtx rfl rfl

/-- Claim C7.  Decoding the encoding of any message succeeds and yields a
message with the same `type`, `context` and `content`: the round trip is
the identity on the fields outbound encoding carries. -/
theorem C7_roundtrip (m : Message) :
    ∃ mr, Message.from_dict (Json.obj m.to_dict) = Except.ok mr
      ∧ mr.type = m.type ∧ mr.context = m.context ∧ mr.content = m.content := by
  cases m with
  | mk t ctx cnt tu fu si ts i =>
      cases t <;> cases tu <;> exact ⟨_, rfl, rfl, rfl, rfl⟩

/-- Claim C8, counterexample.  Calling `connect` on an already-connected
client (here: connected via a first successful `connect` from the fresh
state) opens a second socket and starts a second receive task while the
first ones remain live, with no cleanup event in between — refuting
"at most one live socket / receive task" and "connect ... closes the
prior socket and cancels the prior receive task before opening new
ones". -/
theorem C8_counterexample :
    ((connect Hmain (connect Hmain sInit "sess1" ConnectOutcome.success 100).1.1
        "sess1" ConnectOutcome.success 200).1.1.openSockets).length = 2
    ∧ ((connect Hmain (connect Hmain sInit "sess1" ConnectOutcome.success 100).1.1
        "sess1" ConnectOutcome.success 200).1.1.runningTasks).length = 2
    ∧ ((connect Hmain (connect Hmain sInit "sess1" ConnectOutcome.success 100).1.1
        "sess1" ConnectOutcome.success 200).1.2.filter Ev.isCleanup) = [] :=
  ⟨rfl, rfl, rfl⟩

/-- Claim C8, amended.  `connect` performs no cleanup: a successful call
pushes a fresh socket onto the live-socket ledger and a fresh receive
task onto the running-task ledger, leaving every previously live socket
and task in place, and its trace contains no close/cancel event.
Consequently a `connect` while already connected leaves the client owning
two live sockets and two receive tasks; cleanup happens only in
`disconnect`. -/
theorem C8_connect_no_cleanup (H : Handlers) (s : ClientState) (sid : String)
    (now : Nat) (hrole : s.role ≠ none) (hsid : sid ≠ "") :
    ((connect H s sid ConnectOutcome.success now).1.1.openSockets
        = s.nextId :: s.openSockets)
    ∧ ((connect H s sid ConnectOutcome.success now).1.1.runningTasks
        = (s.nextId + 1) :: s.runningTasks)
    ∧ ((connect H s sid ConnectOutcome.success now).1.2.filter Ev.isCleanup = []) := by
  have hcond : ¬ ((some sid : Option String) = none
      ∨ (some sid : Option String) = some "") := by simp [hsid]
  simp only [connect, establish_connection]
  rw [if_neg hrole]
  rw [if_neg hcond]
  refine ⟨rfl, rfl, ?_⟩
  simp only [List.filter_append, List.filter_cons]
  rw [notify_conn_filter_none H true Ev.isCleanup (fun i => rfl) (fun i => rfl)]
  rfl

/-- Claim C8, witness: the amended statement evaluated on the connected
client — a second successful connect stacks socket 3 and task 4 on top of
the live socket 1 and task 2. -/
theorem C8_witness :
    ((connect Hmain sConn "sess1" ConnectOutcome.success 200).1.1.openSockets = [3, 1])
    ∧ ((connect Hmain sConn "sess1" ConnectOutcome.success 200).1.1.runningTasks = [4, 2])
    ∧ ((connect Hmain sConn "sess1" ConnectOutcome.success 200).1.2.filter Ev.isCleanup = []) :=
  C8_connect_no_cleanup Hmain sConn "sess1" 200 (by decide) (by decide)

/-- Claim C9, counterexample.  A message whose `to_user` is the empty
string IS encoded with a `to_user` field: `to_dict` tests `is not None`,
not emptiness — refuting "for every message whose to_user is empty
(absent or the empty string), the encoded frame contains no to_user
field". -/
theorem C9_counterexample :
    m9.to_user = some (Json.str "")
    ∧ ("to_user", Json.str "") ∈ Message.to_dict m9 :=
  ⟨rfl, List.Mem.tail _ (List.Mem.tail _ (List.Mem.tail _ (List.Mem.head _)))⟩

/-- Claim C9, amended.  Encoding any message emits exactly the fields
`type`, `context`, `content`, plus `to_user` exactly when `to_user` is
set (is not `None`) — including when it is set to the empty string; the
fields `from_user`, `session_id`, `timestamp` and `id` are never
emitted. -/
theorem C9_encode_fields (m : Message) :
    (Message.to_dict m).map Prod.fst
      = ["type", "context", "content"]
          ++ (match m.to_user with
              | some _ => ["to_user"]
              | none => []) := by
  cases m with
  | mk t ctx cnt tu fu si ts i => cases tu <;> rfl

/-- Claim C10.  `disconnect` leaves `message_count` and
`connection_start_time` unchanged while clearing `connected` and the
session reference; a later `get_status` therefore reports
`connected = false` and no session id but still the last connection's
message count, and an uptime that is non-zero and keeps growing with the
wall clock (it is still computed from the old start time). -/
theorem C10_disconnect_frame (H : Handlers) (s : ClientState) (t0 now later : Nat)
    (h0 : s.connection_start_time = some t0) (h1 : t0 ≠ 0)
    (h2 : t0 < now) (h3 : now < later) :
    ((disconnect H s).1.message_count = s.message_count)
    ∧ ((disconnect H s).1.connection_start_time = s.connection_start_time)
    ∧ ((disconnect H s).1.connected = false)
    ∧ ((disconnect H s).1.current_session_id = none)
    ∧ ((get_status (disconnect H s).1 now).connected = false)
    ∧ ((get_status (disconnect H s).1 now).session_id = none)
    ∧ ((get_status (disconnect H s).1 now).message_count = s.message_count)
    ∧ (0 < (get_status (disconnect H s).1 now).uptime_seconds)
    ∧ ((get_status (disconnect H s).1 now).uptime_seconds
        < (get_status (disconnect H s).1 later).uptime_seconds) := by
  have hcs : (disconnect H s).1.connection_start_time = some t0 := by
    rw [show (disconnect H s).1.connection_start_time = s.connection_start_time from rfl, h0]
  refine ⟨rfl, rfl, rfl, rfl, rfl, rfl, rfl, ?_, ?_⟩
  · simp only [get_status, hcs, h1, if_false]
    omega
  · simp only [get_status, hcs, h1, if_false]
    omega

/-- Claim C10, witness: the frame effect evaluated on the connected
client (connected since 100, status read at 150 and 151). -/
theorem C10_witness :
    ((disconnect Hmain sConn).1.message_count = sConn.message_count)
    ∧ ((disconnect Hmain sConn).1.connection_start_time = sConn.connection_start_time)
    ∧ ((disconnect Hmain sConn).1.connected = false)
    ∧ ((disconnect Hmain sConn).1.current_session_id = none)
    ∧ ((get_status (disconnect Hmain sConn).1 150).connected = false)
    ∧ ((get_status (disconnect Hmain sConn).1 150).session_id = none)
    ∧ ((get_status (disconnect Hmain sConn).1 150).message_count = sConn.message_count)
    ∧ (0 < (get_status (disconnect Hmain sConn).1 150).uptime_seconds)
    ∧ ((get_status (disconnect Hmain sConn).1 150).uptime_seconds
        < (get_status (disconnect Hmain sConn).1 151).uptime_seconds) :=
  C10_disconnect_frame Hmain sConn 100 150 151 rfl (by decide) (by decide) (by decide)

end Switchboard
